import Mathlib

/-!
Shallow embedding of the job lifecycle / heartbeat supervision protocol of
`src/airflow/jobs/base_job.py` (class `BaseJob`), and proofs of the spec's
claims about it.

Modelling choices:
* Timestamps and durations are rationals (`ℚ`); `timezone.utcnow()` values are
  passed in explicitly as parameters, one per call site in the source.
* The durable store is a single `JobRecord` (the job's own row); stateful
  methods are functions from the in-memory record and the stored record to a
  result structure that carries the new in-memory record, the new stored
  record, counters, the exit mode and a trace of observable events.
* `sqlalchemy.exc.OperationalError` (the transient storage failure) is
  injected through a `FailPoint` parameter naming the phase that fails,
  mirroring the single `except OperationalError` handler of
  `BaseJob.heartbeat` (base_job.py lines 214-247).
* `session.merge(self)` in the first block of `heartbeat` is modelled as a
  reload of the row's columns from the store, following the source's own
  comment "This will cause it to load from the db" (base_job.py line 216).
-/

namespace BaseJob

/-- Job states, from `airflow.utils.state.State` as described by the spec's
data model (§3): QUEUED_OR_UNSET, RUNNING, SUCCESS, FAILED, RESTARTING,
SHUTDOWN. -/
inductive JobState where
  | queued
  | running
  | success
  | failed
  | restarting
  | shutdown
deriving DecidableEq, Repr

/-- The durable `job` row of `BaseJob` (base_job.py lines 62-73), restricted
to the lifecycle-relevant columns, plus `heartrate` (a per-instance
configuration value in the source, base_job.py lines 101-113, not a column:
a reload from the store never changes it). `latest_heartbeat` is always set
(the constructor writes it at line 111), so it is a plain timestamp here;
`end_date` is unset until finalization, hence `Option`. -/
structure JobRecord where
  id : Nat
  job_type : String
  state : JobState
  start_date : ℚ
  end_date : Option ℚ
  latest_heartbeat : ℚ
  heartrate : ℚ
deriving DecidableEq, Repr

/-- Terminal states per the spec's glossary: SUCCESS, FAILED, SHUTDOWN. -/
def terminal_states : List JobState := [.success, .failed, .shutdown]

/-- Modelled from the spec: `State.terminating_states`
(`airflow.utils.state`, not under `src/`) — the states meaning the job has
been asked to stop: SHUTDOWN and RESTARTING, the two states of the spec's
data model (§3) that are neither the initial/queued state, nor RUNNING, nor
a normal outcome (SUCCESS/FAILED). Used by `heartbeat` at line 220. -/
def terminating_states : List JobState := [.shutdown, .restarting]

/-- `BaseJob.is_alive` (base_job.py lines 147-161):
`state == RUNNING and (now - latest_heartbeat).total_seconds() < heartrate * grace_multiplier`,
with default `grace_multiplier=2.1`. Pure; `timezone.utcnow()` is the `now`
parameter. -/
def is_alive (job : JobRecord) (now : ℚ) (grace_multiplier : ℚ := 21/10) : Bool :=
  job.state == .running && decide (now - job.latest_heartbeat < job.heartrate * grace_multiplier)

/-- The sort key of the `most_recent_job` query (base_job.py lines 136-145):
`case({State.RUNNING: 0}, value=state, else_=1)` ascending, then
`latest_heartbeat` descending — encoded as an ascending lexicographic key
`(running-first flag, negated heartbeat)`. -/
def job_sort_key (j : JobRecord) : ℚ × ℚ :=
  (if j.state = .running then 0 else 1, -j.latest_heartbeat)

/-- Ascending strict lexicographic comparison on the sort keys. -/
def key_lt (a b : ℚ × ℚ) : Bool :=
  decide (a.1 < b.1) || (decide (a.1 = b.1) && decide (a.2 < b.2))

/-- `BaseJob.most_recent_job` (base_job.py lines 123-145): of the stored
records of this type, the one sorting first under `job_sort_key`
(`.limit(1).first()`), `none` on an empty table. Earlier rows win ties,
matching an arbitrary-but-fixed tie order of the store. -/
def most_recent_job : List JobRecord → Option JobRecord
  | [] => none
  | j :: rest =>
    match most_recent_job rest with
    | none => some j
    | some b => if key_lt (job_sort_key b) (job_sort_key j) then some b else some j

/-- Observable events of `BaseJob.kill` (base_job.py lines 163-174), in
program order. -/
inductive KEvent where
  | load
  | set_end_date
  | hook_run
  | hook_raised
  | committed
  | signal_raised
deriving DecidableEq, Repr

structure KillResult where
  store : JobRecord
  events : List KEvent
deriving DecidableEq, Repr

/-- `BaseJob.kill` (base_job.py lines 163-174): load the row by id, set its
`end_date = utcnow()`, call `on_kill()` with any `Exception` caught and
logged (line 168-171), merge and commit, then raise
`AirflowException("Job shut down externally.")` unconditionally.
`hook_raises` says whether the subtype's `on_kill` hook raises; `now` is the
`utcnow()` of line 167. The raised signal is the final `signal_raised`
event: `kill` never returns normally (`NoReturn`). -/
def kill (store : JobRecord) (now : ℚ) (hook_raises : Bool) : KillResult :=
  let j := { store with end_date := some now }
  { store := j
    events := [.load, .set_end_date]
      ++ (if hook_raises then [.hook_run, .hook_raised] else [.hook_run])
      ++ [.committed, .signal_raised] }

/-- Observable events of `BaseJob.heartbeat` (base_job.py lines 183-247). -/
inductive BEvent where
  | reload_store
  | kill_invoked
  | slept
  | heartbeat_committed
  | hook_called
  | storage_error
deriving DecidableEq, Repr

/-- How `heartbeat` exits: a normal return, or the `AirflowException`
raised by `kill` propagating out (it is not an `OperationalError`, so the
handler at line 243 does not catch it). -/
inductive BeatOutcome where
  | returned
  | raised_kill
deriving DecidableEq, Repr

/-- Which phase of `heartbeat` raises the transient `OperationalError`:
none, the first reload session (lines 215-218), the sleep-then-commit
session (lines 233-239), or the `heartbeat_callback` hook (line 241). -/
inductive FailPoint where
  | noFail
  | onReload
  | onCommit
  | onHook
deriving DecidableEq, Repr

structure BeatResult where
  mem : JobRecord
  store : JobRecord
  hb_failure_count : Nat
  outcome : BeatOutcome
  events : List BEvent
deriving DecidableEq, Repr

/-- `BaseJob.heartbeat` (base_job.py lines 183-247). `mem` is `self`,
`store` the durable row, `cnt` the current value of the
`<job>_heartbeat_failure` counter. `t0` is the `utcnow()` of lines 207/227
(entry and sleep computation), `t_commit` the `utcnow()` of line 236 (the
committed heartbeat). `fail` injects an `OperationalError` into one phase;
`kill_hook_raises` is forwarded to `kill`'s `on_kill` hook.

Phase by phase:
* lines 205-210: compute `seconds_remaining`; if positive and
  `only_if_necessary`, return at once — no session is opened.
* line 212: `previous_heartbeat = self.latest_heartbeat` (pre-call value).
* lines 214-218: open a session and merge — reload the row's columns from
  the store — then re-point `previous_heartbeat` at the (reloaded)
  `self.latest_heartbeat`. On `OperationalError` here, control jumps to
  lines 243-247: increment the failure counter, restore
  `latest_heartbeat = previous_heartbeat` (its pre-call value), return.
* lines 220-221: if the reloaded state is in `terminating_states`, call
  `self.kill()`, whose `AirflowException` propagates out.
* lines 223-230: recompute the remaining wait and sleep (`slept`).
* lines 232-239: merge, set `latest_heartbeat = utcnow()`, commit, then
  re-point `previous_heartbeat` at the committed value. On
  `OperationalError` in this session before the commit lands, the store is
  unchanged and `latest_heartbeat` is restored to `previous_heartbeat` —
  the value reloaded at line 218.
* lines 241-242: `heartbeat_callback(session)`. On `OperationalError` here
  the commit has already landed, and line 247 restores `latest_heartbeat`
  to `previous_heartbeat`, which line 239 set to the committed value. -/
def heartbeat (mem store : JobRecord) (cnt : Nat) (only_if_necessary : Bool)
    (t0 t_commit : ℚ) (fail : FailPoint) (kill_hook_raises : Bool) : BeatResult :=
  let seconds_remaining := mem.heartrate - (t0 - mem.latest_heartbeat)
  if decide (seconds_remaining > 0) && only_if_necessary then
    { mem := mem, store := store, hb_failure_count := cnt
      outcome := .returned, events := [] }
  else
    let previous_heartbeat := mem.latest_heartbeat
    if fail = .onReload then
      { mem := { mem with latest_heartbeat := previous_heartbeat }
        store := store, hb_failure_count := cnt + 1
        outcome := .returned, events := [.storage_error] }
    else
      let mem1 := { mem with
        state := store.state
        start_date := store.start_date
        end_date := store.end_date
        latest_heartbeat := store.latest_heartbeat }
      let previous_heartbeat := mem1.latest_heartbeat
      if mem1.state ∈ terminating_states then
        let k := kill store t0 kill_hook_raises
        { mem := mem1, store := k.store, hb_failure_count := cnt
          outcome := .raised_kill, events := [.reload_store, .kill_invoked] }
      else if fail = .onCommit then
        { mem := { mem1 with latest_heartbeat := previous_heartbeat }
          store := store, hb_failure_count := cnt + 1
          outcome := .returned, events := [.reload_store, .slept, .storage_error] }
      else
        let mem2 := { mem1 with latest_heartbeat := t_commit }
        let store2 := { store with
          state := mem2.state
          start_date := mem2.start_date
          end_date := mem2.end_date
          latest_heartbeat := mem2.latest_heartbeat }
        let previous_heartbeat := mem2.latest_heartbeat
        if fail = .onHook then
          { mem := { mem2 with latest_heartbeat := previous_heartbeat }
            store := store2, hb_failure_count := cnt + 1
            outcome := .returned
            events := [.reload_store, .slept, .heartbeat_committed, .storage_error] }
        else
          { mem := mem2, store := store2, hb_failure_count := cnt
            outcome := .returned
            events := [.reload_store, .slept, .heartbeat_committed, .hook_called] }

/-- How `_execute()` exits inside `run` (base_job.py lines 260-269):
a normal return carrying `int | None`, a `SystemExit` (the cooperative
shutdown signal, comment "In case of ^C or SIGTERM"), or any other
`Exception`. -/
inductive ExecOutcome where
  | normal (ret : Option Int)
  | system_exit
  | error
deriving DecidableEq, Repr

/-- How `run` itself exits: returning `ret` (line 277), or re-raising the
`Exception` from `_execute` (line 269). -/
inductive RunExit where
  | returned (ret : Option Int)
  | raised
deriving DecidableEq, Repr

structure RunResult where
  mem : JobRecord
  commits : List JobRecord
  exit : RunExit
deriving DecidableEq, Repr

/-- `BaseJob.run` (base_job.py lines 249-277). `t_end` is the `utcnow()` of
line 272. Steps:
* lines 254-258: `state = RUNNING`, add and commit (first commit),
  `make_transient(self)` detaches the object.
* lines 260-269: run `_execute`; on normal return `state = SUCCESS`; on
  `SystemExit` `state = SUCCESS` and the signal is swallowed (`ret` keeps
  its initial `None`); on any other `Exception` `state = FAILED` and the
  exception is re-raised after the `finally` block.
* lines 270-274 (`finally`, runs on every path): `before_stopping` hook,
  `end_date = utcnow()`, merge and commit (second commit).
`commits` lists the records committed, in order. `beat` never has to run
for any of this: `run` does not call `heartbeat`. -/
def run (job : JobRecord) (t_end : ℚ) (oc : ExecOutcome) : RunResult :=
  let j1 := { job with state := JobState.running }
  let j2 := match oc with
    | .normal _ => { j1 with state := JobState.success }
    | .system_exit => { j1 with state := JobState.success }
    | .error => { j1 with state := JobState.failed }
  let j3 := { j2 with end_date := some t_end }
  { mem := j3
    commits := [j1, j3]
    exit := match oc with
      | .normal r => .returned r
      | .system_exit => .returned none
      | .error => .raised }

/-! ## Helper lemmas about the sort key order -/

lemma key_lt_eq_true_iff {a b : ℚ × ℚ} :
    key_lt a b = true ↔ (a.1 < b.1 ∨ (a.1 = b.1 ∧ a.2 < b.2)) := by
  simp [key_lt]

lemma key_lt_eq_false_iff {a b : ℚ × ℚ} :
    key_lt a b = false ↔ ¬(a.1 < b.1 ∨ (a.1 = b.1 ∧ a.2 < b.2)) := by
  rw [← key_lt_eq_true_iff, Bool.eq_false_iff]

lemma key_lt_irrefl (a : ℚ × ℚ) : key_lt a a = false := by
  simp [key_lt]

lemma key_lt_asymm {a b : ℚ × ℚ} (h : key_lt a b = true) : key_lt b a = false := by
  rw [key_lt_eq_true_iff] at h
  rw [key_lt_eq_false_iff]
  push_neg
  refine ⟨?_, ?_⟩
  · rcases h with h | ⟨h1, h2⟩
    · linarith
    · linarith [le_of_eq h1]
  · intro he
    rcases h with h | ⟨h1, h2⟩
    · linarith
    · linarith

lemma key_not_lt_trans {a b c : ℚ × ℚ} (h1 : key_lt a b = false)
    (h2 : key_lt b c = false) : key_lt a c = false := by
  rw [key_lt_eq_false_iff] at *
  push_neg at h1 h2 ⊢
  obtain ⟨h1a, h1b⟩ := h1
  obtain ⟨h2a, h2b⟩ := h2
  refine ⟨by linarith, ?_⟩
  intro he
  have hab : a.1 = b.1 := by linarith
  have hbc : b.1 = c.1 := by linarith
  have hba := h1b hab
  have hcb := h2b hbc
  linarith

lemma most_recent_job_eq_none {jobs : List JobRecord}
    (h : most_recent_job jobs = none) : jobs = [] := by
  cases jobs with
  | nil => rfl
  | cons j rest =>
    cases hrec : most_recent_job rest with
    | none =>
      simp only [most_recent_job, hrec] at h
      exact Option.noConfusion h
    | some b =>
      simp only [most_recent_job, hrec] at h
      by_cases hk : key_lt (job_sort_key b) (job_sort_key j) = true
      · rw [if_pos hk] at h; simp at h
      · rw [if_neg hk] at h; simp at h

lemma most_recent_job_min (jobs : List JobRecord) :
    ∀ r : JobRecord, most_recent_job jobs = some r →
      r ∈ jobs ∧ ∀ j ∈ jobs, key_lt (job_sort_key j) (job_sort_key r) = false := by
  induction jobs with
  | nil => intro r h; simp [most_recent_job] at h
  | cons j rest ih =>
    intro r h
    cases hrec : most_recent_job rest with
    | none =>
      simp only [most_recent_job, hrec] at h
      injection h with h
      subst h
      have hrest : rest = [] := most_recent_job_eq_none hrec
      subst hrest
      refine ⟨List.mem_singleton_self _, ?_⟩
      intro x hx
      rcases List.mem_singleton.mp hx with rfl
      exact key_lt_irrefl _
    | some b =>
      simp only [most_recent_job, hrec] at h
      obtain ⟨hbmem, hbmin⟩ := ih b hrec
      by_cases hk : key_lt (job_sort_key b) (job_sort_key j) = true
      · rw [if_pos hk] at h
        injection h with h
        subst h
        refine ⟨List.mem_cons_of_mem _ hbmem, ?_⟩
        intro x hx
        rcases List.mem_cons.mp hx with hxj | hxr
        · subst hxj; exact key_lt_asymm hk
        · exact hbmin x hxr
      · rw [if_neg hk] at h
        injection h with h
        subst h
        have hkf : key_lt (job_sort_key b) (job_sort_key j) = false :=
          Bool.eq_false_iff.mpr hk
        refine ⟨List.mem_cons_self _ _, ?_⟩
        intro x hx
        rcases List.mem_cons.mp hx with hxj | hxr
        · subst hxj; exact key_lt_irrefl _
        · exact key_not_lt_trans (hbmin x hxr) hkf

/-! ## Concrete records used by scenarios and witnesses -/

/-- The RUNNING record of the spec's `mostRecentOfType` scenario:
`latest_heartbeat = T - 5`. -/
def running_record (T : ℚ) : JobRecord :=
  { id := 1, job_type := "SchedulerJob", state := .running, start_date := T - 10,
    end_date := none, latest_heartbeat := T - 5, heartrate := 5 }

/-- The FAILED record of the spec's `mostRecentOfType` scenario:
`latest_heartbeat = T - 1`. -/
def failed_record (T : ℚ) : JobRecord :=
  { id := 2, job_type := "SchedulerJob", state := .failed, start_date := T - 10,
    end_date := some (T - 1), latest_heartbeat := T - 1, heartrate := 5 }

/-- The spec's aliveness scenario job: `heartrate = 60`, last heartbeat at
`T`, with state `s`. -/
def scenario_job (T : ℚ) (s : JobState) : JobRecord :=
  { id := 1, job_type := "SchedulerJob", state := s, start_date := T,
    end_date := none, latest_heartbeat := T, heartrate := 60 }

/-! ## Claims about the aliveness oracle -/

/-- C2: `is_alive record now graceMultiplier` is true iff
`record.state = RUNNING` and
`now - record.latest_heartbeat < record.heartrate * graceMultiplier`;
it is false for every non-RUNNING state regardless of heartbeat recency;
and the default grace multiplier is 2.1 = 21/10. -/
theorem is_alive_spec (job : JobRecord) (now gm : ℚ) :
    (is_alive job now gm = true ↔
      (job.state = .running ∧ now - job.latest_heartbeat < job.heartrate * gm))
    ∧ (job.state ≠ .running → is_alive job now gm = false)
    ∧ is_alive job now = is_alive job now (21/10) := by
  refine ⟨?_, ?_, rfl⟩
  · simp [is_alive]
  · intro h; simp [is_alive, h]

theorem is_alive_spec_witness :
    is_alive (scenario_job 0 .failed) 1 (21/10) = false :=
  (is_alive_spec (scenario_job 0 .failed) 1 (21/10)).2.1 (by decide)

/-- C9 counterexample: the claim says `is_alive` at `T + 125` returns
false, but for the scenario job (heartrate 60, last heartbeat at `T`, state
RUNNING) the elapsed 125 seconds are still below the grace window
`60 * 2.1 = 126`, so `is_alive` returns true at `T + 125`. -/
theorem is_alive_scenario_counterexample :
    is_alive (scenario_job 0 .running) 125 (21/10) = true := by
  norm_num [is_alive, scenario_job]

/-- C9 amended: for the job with `heartrate = 60`, `graceMultiplier = 2.1`
and last heartbeat at `T`: at `T + 125` `is_alive` is false only when the
state is not RUNNING (with state RUNNING it is still true, because
`125 < 60 * 2.1 = 126`); with state RUNNING it is false once the grace
window has passed, e.g. at `T + 127`; and at `T + 65` with state RUNNING it
is true. -/
theorem is_alive_scenario (T : ℚ) (s : JobState) (h : s ≠ .running) :
    is_alive (scenario_job T s) (T + 125) (21/10) = false
    ∧ is_alive (scenario_job T .running) (T + 127) (21/10) = false
    ∧ is_alive (scenario_job T .running) (T + 65) (21/10) = true := by
  refine ⟨by simp [is_alive, scenario_job, h], ?_, ?_⟩
  · have h1 : T + 127 - T = (127 : ℚ) := by ring
    simp only [is_alive, scenario_job, h1]
    norm_num
  · have h1 : T + 65 - T = (65 : ℚ) := by ring
    simp only [is_alive, scenario_job, h1]
    norm_num

theorem is_alive_scenario_witness :
    is_alive (scenario_job 0 .failed) (0 + 125) (21/10) = false
    ∧ is_alive (scenario_job 0 .running) (0 + 127) (21/10) = false
    ∧ is_alive (scenario_job 0 .running) (0 + 65) (21/10) = true :=
  is_alive_scenario 0 .failed (by decide)

/-- C4: on a nonempty table, `most_recent_job` returns a stored record that
sorts first under the ordering "RUNNING before every other state, then
`latest_heartbeat` descending" (no stored record sorts strictly before it);
in particular on {FAILED with heartbeat `T - 1`, RUNNING with heartbeat
`T - 5`} it returns the RUNNING one, whichever way the store enumerates
them. -/
theorem most_recent_job_spec (jobs : List JobRecord) (T : ℚ) (h : jobs ≠ []) :
    (∃ r, most_recent_job jobs = some r ∧ r ∈ jobs ∧
        ∀ j ∈ jobs, key_lt (job_sort_key j) (job_sort_key r) = false)
    ∧ most_recent_job [failed_record T, running_record T] = some (running_record T)
    ∧ most_recent_job [running_record T, failed_record T] = some (running_record T) := by
  have hT : (job_sort_key (running_record T)).1 < (job_sort_key (failed_record T)).1 := by
    simp [job_sort_key, running_record, failed_record]
  have hkey : key_lt (job_sort_key (running_record T)) (job_sort_key (failed_record T)) = true :=
    key_lt_eq_true_iff.mpr (Or.inl hT)
  have hkey2 : key_lt (job_sort_key (failed_record T)) (job_sort_key (running_record T)) = false :=
    key_lt_asymm hkey
  refine ⟨?_, ?_, ?_⟩
  · cases hm : most_recent_job jobs with
    | none => exact absurd (most_recent_job_eq_none hm) h
    | some r =>
      obtain ⟨hmem, hmin⟩ := most_recent_job_min jobs r hm
      exact ⟨r, rfl, hmem, hmin⟩
  · simp [most_recent_job, hkey]
  · simp [most_recent_job, hkey2]

theorem most_recent_job_spec_witness :
    (∃ r, most_recent_job [running_record 0] = some r ∧ r ∈ [running_record 0] ∧
        ∀ j ∈ [running_record 0], key_lt (job_sort_key j) (job_sort_key r) = false)
    ∧ most_recent_job [failed_record 0, running_record 0] = some (running_record 0)
    ∧ most_recent_job [running_record 0, failed_record 0] = some (running_record 0) :=
  most_recent_job_spec [running_record 0] 0 (by simp)

/-! ## Claims about the kill switch -/

/-- C5 counterexample: the claim says `end_date` is durably written
(committed non-null) before the `on_kill` cleanup hook executes, but in
`kill` the commit (base_job.py line 173) runs only after `on_kill`
(line 169) has already been invoked — only the in-memory assignment of
`end_date` (line 167) precedes the hook. In the event trace of a concrete
call, `committed` does not precede `hook_run`. -/
theorem kill_commit_not_before_hook :
    ¬ ((kill (scenario_job 0 .running) 5 false).events.indexOf .committed
        < (kill (scenario_job 0 .running) 5 false).events.indexOf .hook_run) := by
  decide

/-- C5 amended: `kill` assigns `end_date = now` in memory before the hook
runs, and always commits that record: an exception raised by the hook is
caught and never prevents the commit — which happens after the hook
returns or raises, not before it — and the termination signal is raised to
the caller in every case, as the last action. -/
theorem kill_protocol (store : JobRecord) (now : ℚ) (hook_raises : Bool) :
    (kill store now hook_raises).store.end_date = some now
    ∧ KEvent.committed ∈ (kill store now hook_raises).events
    ∧ (kill store now hook_raises).events.getLast? = some .signal_raised
    ∧ (kill store now hook_raises).events.indexOf .set_end_date
        < (kill store now hook_raises).events.indexOf .hook_run
    ∧ (kill store now hook_raises).events.indexOf .hook_run
        < (kill store now hook_raises).events.indexOf .committed
    ∧ (hook_raises = true → KEvent.hook_raised ∈ (kill store now hook_raises).events) := by
  have hf : (kill store now false).events
      = [.load, .set_end_date, .hook_run, .committed, .signal_raised] := rfl
  have ht : (kill store now true).events
      = [.load, .set_end_date, .hook_run, .hook_raised, .committed, .signal_raised] := rfl
  cases hook_raises
  · refine ⟨rfl, ?_, ?_, ?_, ?_, ?_⟩ <;> rw [hf] <;> decide
  · refine ⟨rfl, ?_, ?_, ?_, ?_, ?_⟩ <;> rw [ht] <;> decide

theorem kill_protocol_witness :
    KEvent.hook_raised ∈ (kill (scenario_job 0 .running) 5 true).events :=
  (kill_protocol (scenario_job 0 .running) 5 true).2.2.2.2.2 rfl

/-! ## Claims about the lifecycle runner -/

/-- C1: every run — normal return of `_execute`, cooperative shutdown
(`SystemExit`), or any other exception — commits exactly one record in a
terminal state, commits exactly one record carrying an `end_date` (the
final one, so `end_date` is written exactly once and is non-null after the
run), and the final persisted state is one of SUCCESS/FAILED. `run` never
calls `heartbeat`, so this holds even if `_execute` never beat. -/
theorem run_exactly_one_terminal (job : JobRecord) (t_end : ℚ) (oc : ExecOutcome)
    (h : job.end_date = none) :
    ((run job t_end oc).commits.filter
        (fun j => decide (j.state ∈ terminal_states))).length = 1
    ∧ ((run job t_end oc).commits.filter (fun j => j.end_date.isSome)).length = 1
    ∧ (run job t_end oc).commits.getLast? = some (run job t_end oc).mem
    ∧ (run job t_end oc).mem.end_date = some t_end
    ∧ ((run job t_end oc).mem.state = .success ∨ (run job t_end oc).mem.state = .failed) := by
  cases oc <;> refine ⟨?_, ?_, rfl, rfl, ?_⟩ <;>
    simp [run, terminal_states, h]

theorem run_exactly_one_terminal_witness :
    ((run (scenario_job 0 .queued) 9 .error).commits.filter
        (fun j => decide (j.state ∈ terminal_states))).length = 1
    ∧ ((run (scenario_job 0 .queued) 9 .error).commits.filter
        (fun j => j.end_date.isSome)).length = 1
    ∧ (run (scenario_job 0 .queued) 9 .error).commits.getLast?
        = some (run (scenario_job 0 .queued) 9 .error).mem
    ∧ (run (scenario_job 0 .queued) 9 .error).mem.end_date = some 9
    ∧ ((run (scenario_job 0 .queued) 9 .error).mem.state = .success
        ∨ (run (scenario_job 0 .queued) 9 .error).mem.state = .failed) :=
  run_exactly_one_terminal (scenario_job 0 .queued) 9 .error rfl

/-- C7: `run` classifies the exit of `_execute`: on the cooperative
shutdown signal (`SystemExit`) the persisted terminal state — the last
committed record — is SUCCESS; on any other exception it is FAILED, with
`end_date` set, and the exception is re-raised to the caller after the
finalizing commit. -/
theorem run_exit_classification (job : JobRecord) (t_end : ℚ) :
    (run job t_end .system_exit).mem.state = .success
    ∧ (run job t_end .system_exit).commits.getLast?
        = some (run job t_end .system_exit).mem
    ∧ (run job t_end .error).mem.state = .failed
    ∧ (run job t_end .error).commits.getLast? = some (run job t_end .error).mem
    ∧ (run job t_end .error).exit = .raised
    ∧ (run job t_end .error).mem.end_date = some t_end :=
  ⟨rfl, rfl, rfl, rfl, rfl, rfl⟩

/-- C10: when `_execute` raises `SystemExit`, `run` swallows the signal:
after finalizing with state SUCCESS it returns normally with `None` (the
initial `ret` of line 253 is never reassigned on that path) instead of
re-raising — unlike any other exception, which is re-raised. -/
theorem run_swallows_system_exit (job : JobRecord) (t_end : ℚ) (r : Option Int) :
    (run job t_end .system_exit).exit = .returned none
    ∧ (run job t_end .system_exit).mem.state = .success
    ∧ (run job t_end .error).exit = .raised
    ∧ (run job t_end (.normal r)).exit = .returned r :=
  ⟨rfl, rfl, rfl, rfl⟩

/-! ## Claims about the heartbeat supervisor -/

/-- C8: a `heartbeat(only_if_necessary := true)` call made while
`heartrate - (now - latest_heartbeat) > 0` returns immediately: no events
at all (no storage access, no sleep, no heartbeat write, no hook), the
in-memory record unchanged in every field, the store untouched and the
failure counter unchanged. -/
theorem heartbeat_only_if_necessary_noop (mem store : JobRecord) (cnt : Nat)
    (t0 t_commit : ℚ) (fail : FailPoint) (khr : Bool)
    (h : mem.heartrate - (t0 - mem.latest_heartbeat) > 0) :
    heartbeat mem store cnt true t0 t_commit fail khr =
      { mem := mem, store := store, hb_failure_count := cnt
        outcome := .returned, events := [] } := by
  simp [heartbeat, h]

theorem heartbeat_only_if_necessary_noop_witness :
    heartbeat (scenario_job 0 .running) (scenario_job 0 .running) 0 true 1 2 .noFail false =
      { mem := scenario_job 0 .running, store := scenario_job 0 .running
        hb_failure_count := 0, outcome := .returned, events := [] } :=
  heartbeat_only_if_necessary_noop (scenario_job 0 .running) (scenario_job 0 .running)
    0 1 2 .noFail false (by norm_num [scenario_job])

/-- C6: whenever `heartbeat` actually reloads the record (the cheap
`only_if_necessary` return was not taken and the reload session did not
fail) and the reloaded state is a terminating state, it invokes `kill`,
whose termination signal propagates out of `heartbeat` (the
`OperationalError` handler does not catch an `AirflowException`):
`heartbeat` does not return normally, and it never reaches the sleep, the
heartbeat write or the hook; `kill` has durably written `end_date`. -/
theorem heartbeat_terminating_state_kills (mem store : JobRecord) (cnt : Nat)
    (oin : Bool) (t0 t_commit : ℚ) (fail : FailPoint) (khr : Bool)
    (hterm : store.state ∈ terminating_states)
    (hno : ¬(mem.heartrate - (t0 - mem.latest_heartbeat) > 0 ∧ oin = true))
    (hfail : fail ≠ .onReload) :
    (heartbeat mem store cnt oin t0 t_commit fail khr).outcome = .raised_kill
    ∧ (heartbeat mem store cnt oin t0 t_commit fail khr).events
        = [.reload_store, .kill_invoked]
    ∧ BEvent.slept ∉ (heartbeat mem store cnt oin t0 t_commit fail khr).events
    ∧ BEvent.heartbeat_committed ∉ (heartbeat mem store cnt oin t0 t_commit fail khr).events
    ∧ BEvent.hook_called ∉ (heartbeat mem store cnt oin t0 t_commit fail khr).events
    ∧ (heartbeat mem store cnt oin t0 t_commit fail khr).store.end_date = some t0 := by
  have hno' : ¬(t0 - mem.latest_heartbeat < mem.heartrate ∧ oin = true) := by
    rintro ⟨h1, h2⟩
    exact hno ⟨by linarith, h2⟩
  simp [heartbeat, hno', hfail, hterm, kill]

theorem heartbeat_terminating_state_kills_witness :
    (heartbeat (scenario_job 0 .running) (scenario_job 0 .shutdown)
        0 false 100 101 .noFail false).outcome = .raised_kill :=
  (heartbeat_terminating_state_kills (scenario_job 0 .running) (scenario_job 0 .shutdown)
    0 false 100 101 .noFail false (by decide) (by simp) (by decide)).1

/-- C3 counterexample: when the transient storage failure hits the
`heartbeat_callback` hook phase (base_job.py line 241), the commit of line
237 has already landed and line 239 re-pointed `previous_heartbeat` at the
committed timestamp, so the restore at line 247 leaves the in-memory
`latest_heartbeat` at the new committed value (here 101), not at its
pre-call value (here 0) — even though the failure counter increments by 1
and the failure is absorbed. -/
theorem heartbeat_hook_failure_advances :
    (heartbeat (scenario_job 0 .running) (scenario_job 0 .running)
        0 false 100 101 .onHook false).mem.latest_heartbeat
      ≠ (scenario_job 0 .running).latest_heartbeat
    ∧ (heartbeat (scenario_job 0 .running) (scenario_job 0 .running)
        0 false 100 101 .onHook false).hb_failure_count = 0 + 1
    ∧ (heartbeat (scenario_job 0 .running) (scenario_job 0 .running)
        0 false 100 101 .onHook false).outcome = .returned := by
  refine ⟨?_, ?_, ?_⟩ <;> simp [heartbeat, scenario_job, terminating_states]

/-- C3 amended: on any transient storage failure during `heartbeat` the
named failure counter increments by exactly 1 and the failure is not
propagated (the call returns normally), and the in-memory
`latest_heartbeat` is restored to the last storage-confirmed value: the
pre-call value when the reload session fails (the store then unchanged);
the value reloaded from the store when the sleep-then-commit session fails
(the store then unchanged, so this is the pre-call value only when no
concurrent writer advanced the stored heartbeat); and the newly committed
timestamp when the failure hits the heartbeat hook, the commit having
already landed in the store. -/
theorem heartbeat_failure_rollback (mem store : JobRecord) (cnt : Nat)
    (oin : Bool) (t0 t_commit : ℚ) (khr : Bool)
    (hno : ¬(mem.heartrate - (t0 - mem.latest_heartbeat) > 0 ∧ oin = true))
    (hterm : store.state ∉ terminating_states) :
    ((heartbeat mem store cnt oin t0 t_commit .onReload khr).mem.latest_heartbeat
        = mem.latest_heartbeat
      ∧ (heartbeat mem store cnt oin t0 t_commit .onReload khr).hb_failure_count = cnt + 1
      ∧ (heartbeat mem store cnt oin t0 t_commit .onReload khr).outcome = .returned
      ∧ (heartbeat mem store cnt oin t0 t_commit .onReload khr).store = store)
    ∧ ((heartbeat mem store cnt oin t0 t_commit .onCommit khr).mem.latest_heartbeat
        = store.latest_heartbeat
      ∧ (heartbeat mem store cnt oin t0 t_commit .onCommit khr).hb_failure_count = cnt + 1
      ∧ (heartbeat mem store cnt oin t0 t_commit .onCommit khr).outcome = .returned
      ∧ (heartbeat mem store cnt oin t0 t_commit .onCommit khr).store = store)
    ∧ ((heartbeat mem store cnt oin t0 t_commit .onHook khr).mem.latest_heartbeat
        = t_commit
      ∧ (heartbeat mem store cnt oin t0 t_commit .onHook khr).hb_failure_count = cnt + 1
      ∧ (heartbeat mem store cnt oin t0 t_commit .onHook khr).outcome = .returned
      ∧ (heartbeat mem store cnt oin t0 t_commit .onHook khr).store.latest_heartbeat
          = t_commit) := by
  have hno' : ¬(t0 - mem.latest_heartbeat < mem.heartrate ∧ oin = true) := by
    rintro ⟨h1, h2⟩
    exact hno ⟨by linarith, h2⟩
  refine ⟨⟨?_, ?_, ?_, ?_⟩, ⟨?_, ?_, ?_, ?_⟩, ⟨?_, ?_, ?_, ?_⟩⟩ <;>
    simp [heartbeat, hno', hterm]

theorem heartbeat_failure_rollback_witness :
    (heartbeat (scenario_job 0 .running) (scenario_job 0 .running)
        0 false 100 101 .onReload false).mem.latest_heartbeat
      = (scenario_job 0 .running).latest_heartbeat :=
  (heartbeat_failure_rollback (scenario_job 0 .running) (scenario_job 0 .running)
    0 false 100 101 false (by simp) (by decide)).1.1

end BaseJob
